import Mathlib

/-!
Verification development for the garminmcp repository.

We shallowly embed the authentication core of the repository:
  * `src/src/token_store.py`  — nonce issuance/consumption and token-blob
    persistence against an Upstash/Vercel key-value store;
  * `src/src/wallet_verify.py` — the nonce-challenge wallet-auth variant;
  * `src/lib/garmin/auth.py`  — the profile-scoped header variant;
  * `src/src/garmin_auth.py`  — the session-manager login state machine;
  * `src/src/index.py`        — the `garmin_auth_start` MCP tool wrapper.

Modelling conventions:
  * Python `os.environ` is an explicit `Env` record of the variables the
    code reads; Python truthiness of an optional string (`if v:`) is
    `pyTruthy`.
  * The Redis-like key-value store is a pure association list
    `Store := List (String × String)`; `SET`/`GET`/`DELETE` are pure
    functions threaded through every operation.  TTLs (`ex=` arguments)
    are dropped: no claim below depends on store-side expiry.
  * External primitives (EIP-191 signature recovery, ISO-8601 datetime
    parsing, the Garmin client, base64 + zipfile) are oracles passed as
    function arguments, or small executable models where a claim is about
    round-tripping through them.
  * Python exceptions are `Except`; a function whose exceptions matter to
    a claim returns its (possibly mutated) state alongside the
    `Except` result, matching the fact that Python globals keep
    mutations performed before a raise.
  * Time is an integer number of seconds (`Int`) except in the
    profile-scoped variant where the source works in milliseconds.
-/

set_option linter.unusedVariables false

namespace GarminMcp

/-- Python truthiness of an `Optional[str]`: `None` and `""` are falsy. -/
def pyTruthy : Option String → Bool
  | none => false
  | some s => s ≠ ""

/-- Decimal digit parsing for `pyInt`. -/
def digitsVal : List Char → Option Nat
  | [] => none
  | cs => cs.foldl (fun acc c =>
      match acc with
      | none => none
      | some n => if c.isDigit then some (n * 10 + (c.toNat - 48)) else none)
      (some 0)

/-- Python `int(raw)`: optional sign, decimal digits, surrounding
whitespace; `none` when `int()` raises `ValueError`. -/
def pyInt (s : String) : Option Int :=
  match ((s.data.dropWhile Char.isWhitespace).reverse.dropWhile
      Char.isWhitespace).reverse with
  | '-' :: ds => (digitsVal ds).map (fun n => -(n : Int))
  | '+' :: ds => (digitsVal ds).map (fun n => (n : Int))
  | ds => (digitsVal ds).map (fun n => (n : Int))


/-! ### Python string helpers

Lean core's `String.splitOn`, `String.replace`, `String.trim` and
`String.toLower` are defined by position-based loops that the kernel
cannot reduce, so the Python string operations the source uses are
re-implemented structurally over `List Char` (same semantics for the
inputs at hand: single-character separators, `\n` escapes, ASCII
whitespace and case). -/

/-- Python `str.strip()` on the character list. -/
def trimChars (cs : List Char) : List Char :=
  ((cs.dropWhile Char.isWhitespace).reverse.dropWhile Char.isWhitespace).reverse

/-- Python `str.strip()`. -/
def pyStrip (s : String) : String := ⟨trimChars s.data⟩

/-- Python `str.lower()`. -/
def pyLower (s : String) : String := ⟨s.data.map Char.toLower⟩

/-- Python `str.split(sep)` for a one-character separator, on character
lists (`acc` is the current chunk, reversed). -/
def splitCharAux (sep : Char) : List Char → List Char → List (List Char)
  | [], acc => [acc.reverse]
  | c :: rest, acc =>
    if c = sep then acc.reverse :: splitCharAux sep rest []
    else splitCharAux sep rest (c :: acc)

/-- Python `str.split(sep)` for a one-character separator. -/
def pySplit (s : String) (sep : Char) : List String :=
  (splitCharAux sep s.data []).map fun cs => ⟨cs⟩

/-- Python `sep.join(parts)` for a one-character separator. -/
def joinChar (sep : Char) : List (List Char) → List Char
  | [] => []
  | [x] => x
  | x :: rest => x ++ sep :: joinChar sep rest

/-- Python `sep.join(parts)` for a one-character separator. -/
def pyJoin (sep : Char) (parts : List String) : String :=
  ⟨joinChar sep (parts.map String.data)⟩

/-- Python `message.replace("\\n", "\n")`: rewrite each literal
backslash-n pair into a newline, scanning left to right. -/
def unescapeNewlines : List Char → List Char
  | '\\' :: 'n' :: rest => '\n' :: unescapeNewlines rest
  | c :: rest => c :: unescapeNewlines rest
  | [] => []

/-- `message.replace("\\n", "\n")` at the string level. -/
def pyUnescape (s : String) : String := ⟨unescapeNewlines s.data⟩

/-- The environment variables read by the embedded modules
(`os.getenv`; `none` = unset). -/
structure Env where
  UPSTASH_REDIS_REST_URL : Option String := none
  UPSTASH_REDIS_REST_TOKEN : Option String := none
  KV_REST_API_URL : Option String := none
  KV_REST_API_TOKEN : Option String := none
  AUTH_NONCE_TTL_SECONDS : Option String := none
  AUTH_MAX_AGE_SECONDS : Option String := none
  AUTH_ALLOWED_ORIGINS : Option String := none
  AUTH_PENDING_TTL_SECONDS : Option String := none
  AUTH_TIMESTAMP_TOLERANCE_MS : Option String := none
  deriving Repr, DecidableEq

/-- `token_store._env_first`: first environment value that is truthy. -/
def env_first : List (Option String) → Option String
  | [] => none
  | v :: rest => if pyTruthy v then v else env_first rest

/-- `token_store.get_redis`: `some ()` models a live `Redis` handle,
`none` models the unconfigured case (`if not url or not token`). -/
def get_redis (env : Env) : Option Unit :=
  let url := env_first [env.UPSTASH_REDIS_REST_URL, env.KV_REST_API_URL]
  let token := env_first [env.UPSTASH_REDIS_REST_TOKEN, env.KV_REST_API_TOKEN]
  if ¬ pyTruthy url ∨ ¬ pyTruthy token then none else some ()

/-- The key-value store state: an association list from keys to string
values (first binding wins on lookup). -/
def Store := List (String × String)
  deriving Repr, DecidableEq

instance : Membership (String × String) Store := inferInstanceAs (Membership _ (List _))

/-- `GET key`. -/
def storeGet (s : Store) (k : String) : Option String := List.lookup k s

/-- `SET key value` (TTL dropped). -/
def storeSet (s : Store) (k v : String) : Store :=
  (k, v) :: (List.filter (fun p => p.1 ≠ k) s)

/-- `DELETE key`. -/
def storeDel (s : Store) (k : String) : Store :=
  List.filter (fun p => p.1 ≠ k) s

/-- `token_store._nonce_ttl_seconds` (retained for fidelity; TTLs are not
modelled in the store). -/
def nonce_ttl_seconds (env : Env) : Int :=
  let raw := (env.AUTH_NONCE_TTL_SECONDS).getD "300"
  match pyInt raw with
  | some n => max 1 n
  | none => 300

/-- `token_store.issue_nonce`: the fresh random value produced by
`secrets.token_urlsafe(32)` is supplied as the argument `fresh`.
Returns the value handed to the caller together with the new store. -/
def issue_nonce (env : Env) (s : Store) (address : String) (fresh : String) :
    Option String × Store :=
  match get_redis env with
  | none => (none, s)
  | some _ =>
    (some fresh, storeSet s ("auth:nonce:" ++ pyLower address) fresh)

/-- `token_store.consume_nonce`.  The Python guard
`if not existing or existing != nonce` is falsy both when the key is
absent and when the stored value is the empty string. -/
def consume_nonce (env : Env) (s : Store) (address : String) (nonce : String) :
    Bool × Store :=
  match get_redis env with
  | none => (false, s)
  | some _ =>
    match storeGet s ("auth:nonce:" ++ pyLower address) with
    | none => (false, s)
    | some existing =>
      if existing = "" ∨ existing ≠ nonce then (false, s)
      else (true, storeDel s ("auth:nonce:" ++ pyLower address))

/-- `token_store.load_tokens`. -/
def load_tokens (env : Env) (s : Store) (user_id : String) : Option String :=
  match get_redis env with
  | none => none
  | some _ => storeGet s ("garmin:tokens:" ++ user_id)

/-- `token_store.save_tokens` (TTL dropped). -/
def save_tokens (env : Env) (s : Store) (user_id : String) (b64zip : String) :
    Store :=
  match get_redis env with
  | none => s
  | some _ => storeSet s ("garmin:tokens:" ++ user_id) b64zip

theorem lookup_filter_ne_none {β : Type} (k : String)
    (s : List (String × β)) :
    List.lookup k (s.filter (fun p => p.1 ≠ k)) = none := by
  induction s with
  | nil => rfl
  | cons hd tl ih =>
    obtain ⟨a, b⟩ := hd
    rw [List.filter_cons]
    by_cases h : a = k
    · rw [if_neg (by simp [h])]
      exact ih
    · rw [if_pos (by simp [h])]
      have hb : (k == a) = false := beq_eq_false_iff_ne.mpr (fun e => h e.symm)
      simp only [List.lookup, hb]
      exact ih

theorem storeGet_storeDel_self (s : Store) (k : String) :
    storeGet (storeDel s k) k = none := lookup_filter_ne_none k s

/-- Consuming a nonce against a store in which the key is absent fails. -/
theorem consume_nonce_of_absent (env : Env) (s : Store) (address nonce : String)
    (h : storeGet s ("auth:nonce:" ++ pyLower address) = none) :
    consume_nonce env s address nonce = (false, s) := by
  unfold consume_nonce
  split
  · rfl
  · rw [h]

/-- A successful consumption deletes the nonce key, so an immediate second
consumption of the same value (no intervening issuance) fails. -/
theorem consume_nonce_single_use (env : Env) (s s' : Store)
    (address nonce : String)
    (h : consume_nonce env s address nonce = (true, s')) :
    consume_nonce env s' address nonce = (false, s') := by
  have hs : s' = storeDel s ("auth:nonce:" ++ pyLower address) := by
    unfold consume_nonce at h
    split at h
    · simp at h
    · split at h
      · simp at h
      · split at h
        · simp at h
        · exact (congrArg Prod.snd h).symm
  subst hs
  exact consume_nonce_of_absent env _ address nonce (storeGet_storeDel_self s _)

/-! ### `src/src/wallet_verify.py` — nonce-challenge variant -/

/-- `wallet_verify._allowed_origins`. -/
def allowed_origins (env : Env) : List String :=
  if pyStrip ((env.AUTH_ALLOWED_ORIGINS).getD "") = "" then []
  else ((pySplit (pyStrip ((env.AUTH_ALLOWED_ORIGINS).getD "")) ',').map pyStrip).filter
    (fun o => o ≠ "")

/-- `wallet_verify._max_age_seconds`. -/
def max_age_seconds (env : Env) : Int :=
  match pyInt ((env.AUTH_MAX_AGE_SECONDS).getD "120") with
  | some n => max 1 n
  | none => 120

/-- Python dict assignment `d[k] = v` (later assignment wins on lookup). -/
def dictSet (d : List (String × String)) (k v : String) :
    List (String × String) :=
  (k, v) :: d.filter (fun p => p.1 ≠ k)

/-- Python `d.get(k)`. -/
def dictGet (d : List (String × String)) (k : String) : Option String :=
  List.lookup k d

/-- Python `d[k]` where the key is known present (`""` if it is not). -/
def fGet (d : List (String × String)) (k : String) : String :=
  (dictGet d k).getD ""

/-- One iteration of the `for line in message.splitlines()` loop of
`wallet_verify._parse_message_fields`: skip lines without `:`, split on
the first `:`, normalize the key, keep non-empty keys. -/
def parseFieldLine (fields : List (String × String)) (line : String) :
    List (String × String) :=
  match pySplit line ':' with
  | [] => fields
  | [_] => fields
  | keyPart :: rest =>
    if pyLower (pyStrip keyPart) = "" then fields
    else dictSet fields (pyLower (pyStrip keyPart)) (pyStrip (pyJoin ':' rest))

/-- `wallet_verify._parse_message_fields`.  (Python `str.splitlines` is
modelled as splitting on the newline character, the only line break the
callers can produce after unescaping.)  `Except.error` carries the
`ValueError` message. -/
def parse_message_fields (message : String) :
    Except String (List (String × String)) :=
  match (pySplit message '\n').foldl parseFieldLine [] with
  | fields =>
    match ["address", "nonce", "issuedat", "origin"].filter
        (fun k => ¬ pyTruthy (dictGet fields k)) with
    | [] => .ok fields
    | missing => .error ("missing_fields:" ++ String.intercalate "," missing)

/-- `wallet_verify.verify_wallet_headers`.

External collaborators are oracles:
  * `recover msg sig` models `Account.recover_message (encode_defunct msg)`:
    `some a` = the recovered address, `none` = the call raised;
  * `parseIssuedAt` models `_parse_issued_at` (ISO-8601 parsing via
    `datetime.fromisoformat`): `some t` = the parsed time in seconds,
    `none` = the parse raised;
  * `now` models `datetime.now(timezone.utc)` in seconds; the 30-second
    future window and `timedelta(seconds=max_age)` become integer
    arithmetic.
The store is threaded because the nonce-consumption step mutates it. -/
def verify_wallet_headers (env : Env) (s : Store)
    (recover : String → String → Option String)
    (parseIssuedAt : String → Option Int)
    (now : Int)
    (address message signature : String) : (Bool × String) × Store :=
  match parse_message_fields (pyUnescape message) with
  | .error e => ((false, e), s)
  | .ok fields =>
    if pyLower (fGet fields "address") ≠ pyLower address then
      ((false, "address_mismatch"), s)
    else
      match recover message signature with
      | none => ((false, "bad_signature"), s)
      | some recovered =>
        if pyLower recovered ≠ pyLower address then
          ((false, "signature_mismatch"), s)
        else
          match parseIssuedAt (fGet fields "issuedat") with
          | none => ((false, "invalid_issued_at"), s)
          | some issued_at =>
            if issued_at > now + 30 then ((false, "issued_at_in_future"), s)
            else if now - issued_at > max_age_seconds env then
              ((false, "issued_at_expired"), s)
            else if allowed_origins env ≠ [] ∧
                fGet fields "origin" ∉ allowed_origins env then
              ((false, "origin_not_allowed"), s)
            else
              match consume_nonce env s (pyLower address) (fGet fields "nonce") with
              | (true, s2) => ((true, "ok"), s2)
              | (false, s2) => ((false, "nonce_invalid"), s2)

/-- Inversion: a successful `verify_wallet_headers` run pins down every
intermediate check, including the successful nonce consumption. -/
theorem verify_wallet_headers_ok_inv {env : Env} {s : Store}
    {recover : String → String → Option String}
    {parseIssuedAt : String → Option Int} {now : Int}
    {address message signature r : String} {s' : Store}
    (h : verify_wallet_headers env s recover parseIssuedAt now address message
      signature = ((true, r), s')) :
    ∃ fields rec t,
      parse_message_fields (pyUnescape message) = .ok fields ∧
      pyLower (fGet fields "address") = pyLower address ∧
      recover message signature = some rec ∧
      pyLower rec = pyLower address ∧
      parseIssuedAt (fGet fields "issuedat") = some t ∧
      ¬ t > now + 30 ∧
      ¬ now - t > max_age_seconds env ∧
      ¬ (allowed_origins env ≠ [] ∧ fGet fields "origin" ∉ allowed_origins env) ∧
      consume_nonce env s (pyLower address) (fGet fields "nonce") = (true, s') ∧
      r = "ok" := by
  unfold verify_wallet_headers at h
  revert h
  cases hparse : parse_message_fields (pyUnescape message) with
  | error e => intro h; simp at h
  | ok fields =>
    intro h
    dsimp only at h
    by_cases haddr : pyLower (fGet fields "address") ≠ pyLower address
    · rw [if_pos haddr] at h; simp at h
    · rw [if_neg haddr] at h
      revert h
      cases hrec : recover message signature with
      | none => intro h; simp at h
      | some rec =>
        intro h
        dsimp only at h
        by_cases hrl : pyLower rec ≠ pyLower address
        · rw [if_pos hrl] at h; simp at h
        · rw [if_neg hrl] at h
          revert h
          cases hia : parseIssuedAt (fGet fields "issuedat") with
          | none => intro h; simp at h
          | some t =>
            intro h
            dsimp only at h
            by_cases hfut : t > now + 30
            · rw [if_pos hfut] at h; simp at h
            · rw [if_neg hfut] at h
              by_cases hexp : now - t > max_age_seconds env
              · rw [if_pos hexp] at h; simp at h
              · rw [if_neg hexp] at h
                by_cases horig : allowed_origins env ≠ [] ∧
                    fGet fields "origin" ∉ allowed_origins env
                · rw [if_pos horig] at h; simp at h
                · rw [if_neg horig] at h
                  revert h
                  cases hcons : consume_nonce env s (pyLower address)
                      (fGet fields "nonce") with
                  | mk ok s2 =>
                    cases ok with
                    | false => intro h; simp at h
                    | true =>
                      intro h
                      dsimp only at h
                      have hr : "ok" = r := congrArg (fun q => q.1.2) h
                      have hs2 : s2 = s' := congrArg Prod.snd h
                      rw [hs2] at hcons
                      exact ⟨fields, rec, t, rfl, not_ne_iff.mp haddr, rfl,
                        not_ne_iff.mp hrl, hia, hfut, hexp, horig, hcons, hr.symm⟩

/-- After the message parse, address check, signature check and
`issuedAt` parse succeed, `verify_wallet_headers` is exactly the
freshness/origin/nonce tail. -/
theorem verify_wallet_headers_freshness_stage {env : Env} {s : Store}
    {recover : String → String → Option String}
    {parseIssuedAt : String → Option Int} {now : Int}
    {address message signature : String}
    {fields : List (String × String)} {rec : String} {t : Int}
    (hparse : parse_message_fields (pyUnescape message) = .ok fields)
    (haddr : pyLower (fGet fields "address") = pyLower address)
    (hrec : recover message signature = some rec)
    (hrl : pyLower rec = pyLower address)
    (hia : parseIssuedAt (fGet fields "issuedat") = some t) :
    verify_wallet_headers env s recover parseIssuedAt now address message
      signature =
    (if t > now + 30 then ((false, "issued_at_in_future"), s)
     else if now - t > max_age_seconds env then ((false, "issued_at_expired"), s)
     else if allowed_origins env ≠ [] ∧
         fGet fields "origin" ∉ allowed_origins env then
       ((false, "origin_not_allowed"), s)
     else
       match consume_nonce env s (pyLower address) (fGet fields "nonce") with
       | (true, s2) => ((true, "ok"), s2)
       | (false, s2) => ((false, "nonce_invalid"), s2)) := by
  unfold verify_wallet_headers
  simp only [hparse]
  rw [if_neg (not_ne_iff.mpr haddr)]
  simp only [hrec]
  rw [if_neg (not_ne_iff.mpr hrl)]
  simp only [hia]

/-- C1: a nonce value is accepted at most once per address.  After
`consume_nonce(address, n)` returns `True`, a second
`consume_nonce(address, n)` with no intervening `issue_nonce` for that
address returns `False`; consequently, replaying an identical,
otherwise-valid wallet-auth request makes `verify_wallet_headers` fail
with reason `nonce_invalid`. -/
theorem nonce_accepted_at_most_once :
    (∀ (env : Env) (s s' : Store) (address n : String),
      consume_nonce env s address n = (true, s') →
      consume_nonce env s' address n = (false, s')) ∧
    (∀ (env : Env) (s s' : Store)
      (recover : String → String → Option String)
      (parseIssuedAt : String → Option Int) (now : Int)
      (address message signature : String),
      verify_wallet_headers env s recover parseIssuedAt now address message
        signature = ((true, "ok"), s') →
      verify_wallet_headers env s' recover parseIssuedAt now address message
        signature = ((false, "nonce_invalid"), s')) := by
  constructor
  · exact fun env s s' a n h => consume_nonce_single_use env s s' a n h
  · intro env s s' recover parseIssuedAt now address message signature h
    obtain ⟨fields, rec, t, hparse, haddr, hrec, hrl, hia, hfut, hexp, horig,
      hcons, -⟩ := verify_wallet_headers_ok_inv h
    rw [verify_wallet_headers_freshness_stage hparse haddr hrec hrl hia,
      if_neg hfut, if_neg hexp, if_neg horig,
      consume_nonce_single_use env s s' _ _ hcons]

theorem nonce_accepted_at_most_once_witness :
    consume_nonce
      { UPSTASH_REDIS_REST_URL := some "u", UPSTASH_REDIS_REST_TOKEN := some "t" }
      [] "0xA" "n1" = (false, []) ∧
    verify_wallet_headers
      { UPSTASH_REDIS_REST_URL := some "u", UPSTASH_REDIS_REST_TOKEN := some "t" }
      [] (fun _ _ => some "0xA") (fun _ => some 100) 110 "0xA"
      "address: 0xA\\nnonce: n1\\nissuedAt: x\\norigin: o" "sig" =
      ((false, "nonce_invalid"), []) :=
  ⟨nonce_accepted_at_most_once.1 _ [("auth:nonce:0xa", "n1")] _ _ _ (by decide),
   nonce_accepted_at_most_once.2 _ [("auth:nonce:0xa", "n1")] _ _ _ _ _ _ _
     (by decide)⟩

/-- C5: for a request whose `issuedAt` parses to `t` (all earlier checks
passing), verification fails with `issued_at_in_future` when `t` is more
than 30 seconds after `now`, fails with `issued_at_expired` when
`now - t` exceeds the configured max age (default 120 seconds), and a
message whose age is exactly the max age (and within the future window)
is not rejected by either freshness check. -/
theorem issued_at_freshness_windows
    (env : Env) (s : Store) (recover : String → String → Option String)
    (parseIssuedAt : String → Option Int) (now : Int)
    (address message signature : String)
    (fields : List (String × String)) (rec : String) (t : Int)
    (hparse : parse_message_fields (pyUnescape message) = .ok fields)
    (haddr : pyLower (fGet fields "address") = pyLower address)
    (hrec : recover message signature = some rec)
    (hrl : pyLower rec = pyLower address)
    (hia : parseIssuedAt (fGet fields "issuedat") = some t) :
    (t > now + 30 →
      verify_wallet_headers env s recover parseIssuedAt now address message
        signature = ((false, "issued_at_in_future"), s)) ∧
    (t ≤ now + 30 → now - t > max_age_seconds env →
      verify_wallet_headers env s recover parseIssuedAt now address message
        signature = ((false, "issued_at_expired"), s)) ∧
    (t ≤ now + 30 → now - t = max_age_seconds env →
      (verify_wallet_headers env s recover parseIssuedAt now address message
        signature).1.2 ≠ "issued_at_in_future" ∧
      (verify_wallet_headers env s recover parseIssuedAt now address message
        signature).1.2 ≠ "issued_at_expired") ∧
    (env.AUTH_MAX_AGE_SECONDS = none → max_age_seconds env = 120) := by
  refine ⟨?_, ?_, ?_, ?_⟩
  · intro hf
    rw [verify_wallet_headers_freshness_stage hparse haddr hrec hrl hia,
      if_pos hf]
  · intro hnf hexp
    rw [verify_wallet_headers_freshness_stage hparse haddr hrec hrl hia,
      if_neg (by omega : ¬ t > now + 30), if_pos hexp]
  · intro hnf heq
    rw [verify_wallet_headers_freshness_stage hparse haddr hrec hrl hia,
      if_neg (by omega : ¬ t > now + 30),
      if_neg (by omega : ¬ now - t > max_age_seconds env)]
    constructor
    · split
      · exact (by decide : ("origin_not_allowed" : String) ≠ "issued_at_in_future")
      · cases hcn : consume_nonce env s (pyLower address) (fGet fields "nonce")
          with
        | mk b s2 =>
          cases b
          · exact (by decide : ("nonce_invalid" : String) ≠ "issued_at_in_future")
          · exact (by decide : ("ok" : String) ≠ "issued_at_in_future")
    · split
      · exact (by decide : ("origin_not_allowed" : String) ≠ "issued_at_expired")
      · cases hcn : consume_nonce env s (pyLower address) (fGet fields "nonce")
          with
        | mk b s2 =>
          cases b
          · exact (by decide : ("nonce_invalid" : String) ≠ "issued_at_expired")
          · exact (by decide : ("ok" : String) ≠ "issued_at_expired")
  · intro h0
    unfold max_age_seconds
    rw [h0]
    decide

theorem issued_at_freshness_windows_witness :
    verify_wallet_headers {} [] (fun _ _ => some "0xA") (fun _ => some 1000) 100
      "0xA" "address: 0xA\\nnonce: n1\\nissuedAt: x\\norigin: o" "sig" =
      ((false, "issued_at_in_future"), []) ∧
    verify_wallet_headers {} [] (fun _ _ => some "0xA") (fun _ => some (-100))
      100 "0xA" "address: 0xA\\nnonce: n1\\nissuedAt: x\\norigin: o" "sig" =
      ((false, "issued_at_expired"), []) ∧
    (verify_wallet_headers {} [] (fun _ _ => some "0xA") (fun _ => some (-20))
      100 "0xA" "address: 0xA\\nnonce: n1\\nissuedAt: x\\norigin: o"
      "sig").1.2 ≠ "issued_at_in_future" ∧
    (verify_wallet_headers {} [] (fun _ _ => some "0xA") (fun _ => some (-20))
      100 "0xA" "address: 0xA\\nnonce: n1\\nissuedAt: x\\norigin: o"
      "sig").1.2 ≠ "issued_at_expired" :=
  ⟨(issued_at_freshness_windows {} [] (fun _ _ => some "0xA")
      (fun _ => some 1000) 100 "0xA"
      "address: 0xA\\nnonce: n1\\nissuedAt: x\\norigin: o" "sig"
      [("origin", "o"), ("issuedat", "x"), ("nonce", "n1"), ("address", "0xA")]
      "0xA" 1000 rfl (by decide) rfl (by decide) rfl).1 (by decide),
   (issued_at_freshness_windows {} [] (fun _ _ => some "0xA")
      (fun _ => some (-100)) 100 "0xA"
      "address: 0xA\\nnonce: n1\\nissuedAt: x\\norigin: o" "sig"
      [("origin", "o"), ("issuedat", "x"), ("nonce", "n1"), ("address", "0xA")]
      "0xA" (-100) rfl (by decide) rfl (by decide) rfl).2.1 (by decide)
      (by decide),
   ((issued_at_freshness_windows {} [] (fun _ _ => some "0xA")
      (fun _ => some (-20)) 100 "0xA"
      "address: 0xA\\nnonce: n1\\nissuedAt: x\\norigin: o" "sig"
      [("origin", "o"), ("issuedat", "x"), ("nonce", "n1"), ("address", "0xA")]
      "0xA" (-20) rfl (by decide) rfl (by decide) rfl).2.2.1
      (by decide) (by decide)).1,
   ((issued_at_freshness_windows {} [] (fun _ _ => some "0xA")
      (fun _ => some (-20)) 100 "0xA"
      "address: 0xA\\nnonce: n1\\nissuedAt: x\\norigin: o" "sig"
      [("origin", "o"), ("issuedat", "x"), ("nonce", "n1"), ("address", "0xA")]
      "0xA" (-20) rfl (by decide) rfl (by decide) rfl).2.2.1
      (by decide) (by decide)).2⟩

/-- C10: when the key/value store is not configured (`get_redis` returns
`None`), `issue_nonce` returns `None` and `consume_nonce` returns `False`
for every input, so `verify_wallet_headers` can never return success and
reports `nonce_invalid` for an otherwise fully valid request. -/
theorem kv_unconfigured_fails_closed (env : Env) (h : get_redis env = none) :
    (∀ (s : Store) (a f : String), issue_nonce env s a f = (none, s)) ∧
    (∀ (s : Store) (a n : String), consume_nonce env s a n = (false, s)) ∧
    (∀ (s s2 : Store) (recover : String → String → Option String)
      (parseIssuedAt : String → Option Int) (now : Int) (a m sig r : String),
      verify_wallet_headers env s recover parseIssuedAt now a m sig ≠
        ((true, r), s2)) ∧
    (∀ (s : Store) (recover : String → String → Option String)
      (parseIssuedAt : String → Option Int) (now : Int) (a m sig : String)
      (fields : List (String × String)) (rec : String) (t : Int),
      parse_message_fields (pyUnescape m) = .ok fields →
      pyLower (fGet fields "address") = pyLower a →
      recover m sig = some rec → pyLower rec = pyLower a →
      parseIssuedAt (fGet fields "issuedat") = some t →
      ¬ t > now + 30 → ¬ now - t > max_age_seconds env →
      ¬ (allowed_origins env ≠ [] ∧ fGet fields "origin" ∉ allowed_origins env) →
      verify_wallet_headers env s recover parseIssuedAt now a m sig =
        ((false, "nonce_invalid"), s)) := by
  have hcons : ∀ (s : Store) (a n : String),
      consume_nonce env s a n = (false, s) := by
    intro s a n
    unfold consume_nonce
    rw [h]
  refine ⟨?_, hcons, ?_, ?_⟩
  · intro s a f
    unfold issue_nonce
    rw [h]
  · intro s s2 recover parseIssuedAt now a m sig r hver
    obtain ⟨fields, rec, t, -, -, -, -, -, -, -, -, hc, -⟩ :=
      verify_wallet_headers_ok_inv hver
    rw [hcons s (pyLower a) (fGet fields "nonce")] at hc
    simp at hc
  · intro s recover parseIssuedAt now a m sig fields rec t hparse haddr hrec
      hrl hia hfut hexp horig
    rw [verify_wallet_headers_freshness_stage hparse haddr hrec hrl hia,
      if_neg hfut, if_neg hexp, if_neg horig, hcons]

theorem kv_unconfigured_fails_closed_witness :
    issue_nonce {} [] "0xA" "n1" = (none, []) ∧
    consume_nonce {} [] "0xA" "n1" = (false, []) ∧
    verify_wallet_headers {} [] (fun _ _ => some "0xA") (fun _ => some 100) 110
      "0xA" "address: 0xA\\nnonce: n1\\nissuedAt: x\\norigin: o" "sig" =
      ((false, "nonce_invalid"), []) :=
  ⟨(kv_unconfigured_fails_closed {} (by decide)).1 [] "0xA" "n1",
   (kv_unconfigured_fails_closed {} (by decide)).2.1 [] "0xA" "n1",
   (kv_unconfigured_fails_closed {} (by decide)).2.2.2 []
     (fun _ _ => some "0xA") (fun _ => some 100) 110 "0xA"
     "address: 0xA\\nnonce: n1\\nissuedAt: x\\norigin: o" "sig"
     [("origin", "o"), ("issuedat", "x"), ("nonce", "n1"), ("address", "0xA")]
     "0xA" 100 rfl (by decide) rfl (by decide) rfl (by decide)
     (by decide) (by decide)⟩

/-! ### `src/lib/garmin/auth.py` — profile-scoped header variant -/

/-- The `GarminAuthError` subclasses of `lib/garmin/auth.py` (the
carried exception messages are dropped except for the list of missing
headers). -/
inductive HeaderAuthError where
  | missingHeaders (missing : List String)
  | invalidTimestamp
  | invalidSignature
  | invalidMessage
  deriving Repr, DecidableEq

/-- The dictionary returned by a successful `verify_garmin_auth`. -/
structure VerifiedAuth where
  address : String
  profileId : String
  timestamp : Int
  path : String
  deriving Repr, DecidableEq

/-- `lib/garmin/auth._tolerance_ms` (default five minutes). -/
def tolerance_ms (env : Env) : Int :=
  if pyStrip ((env.AUTH_TIMESTAMP_TOLERANCE_MS).getD "") = "" then 300000
  else
    match pyInt (pyStrip ((env.AUTH_TIMESTAMP_TOLERANCE_MS).getD "")) with
    | some n => max 1 n
    | none => 300000

/-- `lib/garmin/auth._normalize_headers`: lowercase every key (a later
duplicate key overwrites an earlier one, as in a dict comprehension). -/
def normalize_headers (headers : List (String × String)) :
    List (String × String) :=
  headers.foldl (fun d p => dictSet d (pyLower p.1) p.2) []

/-- The fixed message template of `verify_garmin_auth` (the f-string at
lines 98–104 of `lib/garmin/auth.py`). -/
def expected_message (address profile_id timestamp expected_path : String) :
    String :=
  "Medoxie Garmin API Access\n" ++ "address: " ++ address ++ "\n" ++
    "profileId: " ++ profile_id ++ "\n" ++ "timestamp: " ++ timestamp ++
    "\n" ++ "path: " ++ expected_path

/-- The required header names, in source order. -/
def requiredHeaderNames : List String :=
  ["x-medoxie-address", "x-medoxie-profile-id", "x-medoxie-timestamp",
   "x-medoxie-message", "x-medoxie-signature"]

/-- `lib/garmin/auth.verify_garmin_auth`.

External collaborators are oracles:
  * `decode` models `_decode_message` (base64 then UTF-8 decoding);
    `none` = either stage raised, which the source maps to
    `InvalidMessageError`;
  * `recover` models `w3.eth.account.recover_message (encode_defunct msg)`;
    `none` = the call raised;
  * `now_ms` models `int(time.time() * 1000)`.
All header comparisons are on the lowercase-key-normalized dict. -/
def verify_garmin_auth (env : Env) (decode : String → Option String)
    (recover : String → String → Option String) (now_ms : Int)
    (headers : List (String × String)) (expected_path : String) :
    Except HeaderAuthError VerifiedAuth :=
  if ¬ (requiredHeaderNames.all fun k =>
      pyTruthy (dictGet (normalize_headers headers) k)) then
    .error (.missingHeaders (requiredHeaderNames.filter fun k =>
      ¬ pyTruthy (dictGet (normalize_headers headers) k)))
  else
    match decode (fGet (normalize_headers headers) "x-medoxie-message") with
    | none => .error .invalidMessage
    | some message =>
      match pyInt (fGet (normalize_headers headers) "x-medoxie-timestamp") with
      | none => .error .invalidTimestamp
      | some timestamp_ms =>
        if |now_ms - timestamp_ms| > tolerance_ms env then
          .error .invalidTimestamp
        else if message ≠ expected_message
            (pyLower (fGet (normalize_headers headers) "x-medoxie-address"))
            (pyLower (fGet (normalize_headers headers) "x-medoxie-profile-id"))
            (fGet (normalize_headers headers) "x-medoxie-timestamp")
            expected_path then
          .error .invalidMessage
        else
          match recover message
              (fGet (normalize_headers headers) "x-medoxie-signature") with
          | none => .error .invalidSignature
          | some recovered =>
            if pyLower recovered ≠
                pyLower (fGet (normalize_headers headers) "x-medoxie-address")
              then .error .invalidSignature
            else
              .ok
                ⟨pyLower (fGet (normalize_headers headers) "x-medoxie-address"),
                 pyLower (fGet (normalize_headers headers) "x-medoxie-profile-id"),
                 timestamp_ms, expected_path⟩

theorem string_append_left_cancel {a b c : String} (h : a ++ b = a ++ c) :
    b = c := by
  have hd := congrArg String.data h
  rw [String.data_append, String.data_append] at hd
  exact String.ext (List.append_cancel_left hd)

/-- The message template determines the path: equal rendered templates
have equal path components. -/
theorem expected_message_path_inj {a p t q1 q2 : String}
    (h : expected_message a p t q1 = expected_message a p t q2) : q1 = q2 :=
  string_append_left_cancel h

/-- C4: in the profile-scoped header variant, `verify_garmin_auth`
succeeds only if the decoded message equals, byte for byte, the fixed
template embedding the lowercased address, lowercased profile id,
timestamp and the exact request path; consequently the same headers
verified against any different expected path fail with the
`InvalidMessage` error. -/
theorem profile_scoped_path_binding (env : Env)
    (decode : String → Option String)
    (recover : String → String → Option String) (now_ms : Int)
    (headers : List (String × String)) (expected_path : String)
    (res : VerifiedAuth)
    (h : verify_garmin_auth env decode recover now_ms headers expected_path =
      .ok res) :
    decode (fGet (normalize_headers headers) "x-medoxie-message") =
      some (expected_message
        (pyLower (fGet (normalize_headers headers) "x-medoxie-address"))
        (pyLower (fGet (normalize_headers headers) "x-medoxie-profile-id"))
        (fGet (normalize_headers headers) "x-medoxie-timestamp")
        expected_path) ∧
    ∀ p2, p2 ≠ expected_path →
      verify_garmin_auth env decode recover now_ms headers p2 =
        .error .invalidMessage := by
  unfold verify_garmin_auth at h
  by_cases hmiss : ¬ (requiredHeaderNames.all fun k =>
      pyTruthy (dictGet (normalize_headers headers) k))
  · rw [if_pos hmiss] at h
    exact Except.noConfusion h
  · rw [if_neg hmiss] at h
    revert h
    cases hdec : decode (fGet (normalize_headers headers) "x-medoxie-message")
      with
    | none => intro h; exact Except.noConfusion h
    | some message =>
      intro h
      dsimp only at h
      revert h
      cases hts : pyInt (fGet (normalize_headers headers)
          "x-medoxie-timestamp") with
      | none => intro h; exact Except.noConfusion h
      | some timestamp_ms =>
        intro h
        dsimp only at h
        by_cases hage : |now_ms - timestamp_ms| > tolerance_ms env
        · rw [if_pos hage] at h
          exact Except.noConfusion h
        · rw [if_neg hage] at h
          by_cases hmsg : message ≠ expected_message
              (pyLower (fGet (normalize_headers headers) "x-medoxie-address"))
              (pyLower (fGet (normalize_headers headers) "x-medoxie-profile-id"))
              (fGet (normalize_headers headers) "x-medoxie-timestamp")
              expected_path
          · rw [if_pos hmsg] at h
            exact Except.noConfusion h
          · have hmeq := not_ne_iff.mp hmsg
            constructor
            · exact congrArg some hmeq
            · intro p2 hp2
              have hne : message ≠ expected_message
                  (pyLower (fGet (normalize_headers headers) "x-medoxie-address"))
                  (pyLower (fGet (normalize_headers headers) "x-medoxie-profile-id"))
                  (fGet (normalize_headers headers) "x-medoxie-timestamp")
                  p2 := by
                rw [hmeq]
                intro he
                exact hp2 (expected_message_path_inj he).symm
              unfold verify_garmin_auth
              rw [if_neg hmiss, hdec]
              dsimp only
              rw [hts]
              dsimp only
              rw [if_neg hage, if_pos hne]

theorem profile_scoped_path_binding_witness :
    verify_garmin_auth {} (fun s => some s) (fun _ _ => some "0xAB") 5
      [("x-medoxie-address", "0xAB"), ("x-medoxie-profile-id", "P1"),
       ("x-medoxie-timestamp", "5"),
       ("x-medoxie-message",
        "Medoxie Garmin API Access\naddress: 0xab\nprofileId: p1\ntimestamp: 5\npath: /a"),
       ("x-medoxie-signature", "sig")] "/b" = .error .invalidMessage :=
  (profile_scoped_path_binding {} (fun s => some s) (fun _ _ => some "0xAB") 5
      [("x-medoxie-address", "0xAB"), ("x-medoxie-profile-id", "P1"),
       ("x-medoxie-timestamp", "5"),
       ("x-medoxie-message",
        "Medoxie Garmin API Access\naddress: 0xab\nprofileId: p1\ntimestamp: 5\npath: /a"),
       ("x-medoxie-signature", "sig")] "/a" ⟨"0xab", "p1", 5, "/a"⟩ rfl).2
    "/b" (by decide)

/-! ### Token persistence: `zip_dir_to_b64` / `b64_to_dir`

`token_store.zip_dir_to_b64` walks a working directory, writes every file
under its relative path into a ZIP archive and base64-encodes the archive
bytes; `b64_to_dir` decodes and extracts.  The file tree is modelled as a
finite map from relative paths to byte contents
(`FileTree := List (String × List Nat)`).  The external `zipfile` and
`base64` libraries are modelled by a concrete executable serializer with
the same interface contract (an injective encoding of the entry list into
a printable string, whose decoder inverts it and rejects malformed
input). -/

/-- A working-directory file tree: relative path ↦ byte contents. -/
def FileTree := List (String × List Nat)
  deriving Repr, DecidableEq

/-- Model of the archive serialization of one entry: length-prefixed
path characters, then length-prefixed contents. -/
def encodeEntry (e : String × List Nat) : List Nat :=
  (e.1.data.length :: e.1.data.map Char.toNat) ++ (e.2.length :: e.2)

/-- Model of `zipfile.ZipFile(..., "w")` over the walked tree: entry
count followed by the serialized entries. -/
def serializeTree (t : FileTree) : List Nat :=
  t.length :: (t.map encodeEntry).flatten

/-- Read exactly `n` tokens (`none` = truncated archive). -/
def readN (n : Nat) (l : List Nat) : Option (List Nat × List Nat) :=
  if l.length < n then none else some (l.take n, l.drop n)

/-- Parse `n` archive entries (`none` = malformed archive, modelling
`zipfile.BadZipFile`). -/
def parseEntries : Nat → List Nat → Option FileTree
  | 0, _ => some []
  | n + 1, l =>
    match l with
    | [] => none
    | plen :: rest =>
      match readN plen rest with
      | none => none
      | some (pcodes, rest2) =>
        match rest2 with
        | [] => none
        | blen :: rest3 =>
          match readN blen rest3 with
          | none => none
          | some (bs, rest4) =>
            match parseEntries n rest4 with
            | none => none
            | some t => some ((⟨pcodes.map Char.ofNat⟩, bs) :: t)

/-- Model of `zipfile.ZipFile(..., "r").extractall`. -/
def deserializeTree (l : List Nat) : Option FileTree :=
  match l with
  | [] => none
  | n :: rest => parseEntries n rest

/-- Digit character for the base64 model. -/
def digitChar (d : Nat) : Char := Char.ofNat (48 + d)

/-- Inverse of `digitChar` on digits (`none` = not a digit). -/
def charDigit (c : Char) : Option Nat :=
  if '0' ≤ c ∧ c ≤ '9' then some (c.toNat - 48) else none

/-- Model of the base64 alphabet encoding of one token: its decimal
digits (little-endian) followed by a terminator. -/
def natToChars (n : Nat) : List Char :=
  (Nat.digits 10 n).map digitChar ++ ['.']

/-- Model of `base64.b64encode` over the token stream. -/
def natsToString (ns : List Nat) : String :=
  ⟨(ns.map natToChars).flatten⟩

/-- Parser for `natsToString`'s output; `cur` holds the digits of the
current group.  `none` models `binascii.Error` on malformed input. -/
def parseNatsAux : List Char → List Nat → Option (List Nat)
  | [], cur => if cur.isEmpty then some [] else none
  | c :: rest, cur =>
    if c = '.' then
      match parseNatsAux rest [] with
      | none => none
      | some ns => some (Nat.ofDigits 10 cur :: ns)
    else
      match charDigit c with
      | none => none
      | some d => parseNatsAux rest (cur ++ [d])

/-- Model of `base64.b64decode`. -/
def stringToNats (s : String) : Option (List Nat) :=
  parseNatsAux s.data []

/-- `token_store.zip_dir_to_b64` on the modelled file tree. -/
def zip_dir_to_b64 (tree : FileTree) : String :=
  natsToString (serializeTree tree)

/-- `token_store.b64_to_dir`: decode then extract; `none` models the
raised exception on a malformed blob. -/
def b64_to_dir (b64 : String) : Option FileTree :=
  match stringToNats b64 with
  | none => none
  | some l => deserializeTree l

theorem charDigit_digitChar {d : Nat} (h : d < 10) :
    charDigit (digitChar d) = some d := by
  interval_cases d <;> rfl

theorem digitChar_ne_dot {d : Nat} (h : d < 10) : digitChar d ≠ '.' := by
  interval_cases d <;> decide

/-- Parsing one encoded group prepends its value. -/
theorem parseNatsAux_group (ds : List Nat) (hds : ∀ d ∈ ds, d < 10)
    (rest : List Char) (cur : List Nat) :
    parseNatsAux ((ds.map digitChar ++ ['.']) ++ rest) cur =
      (match parseNatsAux rest [] with
       | none => none
       | some ns => some (Nat.ofDigits 10 (cur ++ ds) :: ns)) := by
  induction ds generalizing cur with
  | nil =>
    show parseNatsAux ('.' :: rest) cur = _
    conv_lhs => rw [parseNatsAux]
    rw [if_pos rfl]
    simp
  | cons d ds ih =>
    have hd : d < 10 := hds d (by simp)
    simp only [List.map_cons, List.cons_append]
    conv_lhs => rw [parseNatsAux]
    rw [if_neg (digitChar_ne_dot hd), charDigit_digitChar hd]
    dsimp only
    rw [ih (fun x hx => hds x (by simp [hx])) (cur ++ [d])]
    simp

theorem parseNatsAux_natsToString (ns : List Nat) :
    parseNatsAux (natsToString ns).data [] = some ns := by
  induction ns with
  | nil => rfl
  | cons n ns ih =>
    show parseNatsAux ((n :: ns).map natToChars).flatten [] = some (n :: ns)
    rw [List.map_cons, List.flatten_cons]
    rw [show natToChars n = (Nat.digits 10 n).map digitChar ++ ['.'] from rfl]
    rw [parseNatsAux_group (Nat.digits 10 n)
      (fun d hd => Nat.digits_lt_base (by norm_num) hd) _ []]
    rw [show (List.map natToChars ns).flatten = (natsToString ns).data from rfl,
      ih]
    simp [Nat.ofDigits_digits]

theorem readN_exact (l rest : List Nat) :
    readN l.length (l ++ rest) = some (l, rest) := by
  unfold readN
  rw [if_neg (by simp)]
  rw [List.take_left, List.drop_left]

/-- Entry-list serialization round-trips. -/
theorem parseEntries_serialize (t : FileTree) (rest : List Nat) :
    parseEntries t.length ((t.map encodeEntry).flatten ++ rest) = some t := by
  induction t generalizing rest with
  | nil => rfl
  | cons e t ih =>
    obtain ⟨p, bs⟩ := e
    rw [List.map_cons, List.flatten_cons, List.length_cons]
    unfold parseEntries
    rw [show encodeEntry (p, bs) =
      (p.data.length :: p.data.map Char.toNat) ++ (bs.length :: bs) from rfl]
    simp only [List.cons_append, List.append_assoc]
    rw [show p.data.length = (p.data.map Char.toNat).length from by simp]
    rw [readN_exact (p.data.map Char.toNat)
      (bs.length :: (bs ++ ((t.map encodeEntry).flatten ++ rest)))]
    dsimp only
    rw [readN_exact bs ((t.map encodeEntry).flatten ++ rest)]
    dsimp only
    rw [ih rest]
    dsimp only
    rw [List.map_map]
    have hchars : p.data.map (Char.ofNat ∘ Char.toNat) = p.data := by
      rw [show (Char.ofNat ∘ Char.toNat) = id from funext Char.ofNat_toNat]
      exact List.map_id p.data
    rw [hchars]

/-- C8: archiving a working-area file tree with `zip_dir_to_b64` and
restoring it with `b64_to_dir` reproduces the same map of relative file
paths to byte contents. -/
theorem token_blob_roundtrip (tree : FileTree) :
    b64_to_dir (zip_dir_to_b64 tree) = some tree := by
  have h := parseEntries_serialize tree []
  rw [List.append_nil] at h
  unfold b64_to_dir zip_dir_to_b64 stringToNats
  rw [parseNatsAux_natsToString (serializeTree tree)]
  exact h

/-! ### `src/src/garmin_auth.py` — session manager, and the
`garmin_auth_start` tool of `src/src/index.py` -/

/-- Outcome of the external credential login
(`Garmin(email=..., password=..., return_on_mfa=True).login()`): success,
the `("needs_mfa", token)` pair, or one of the exception classes the
source catches. -/
inductive LoginOutcome where
  | success
  | needsMfa (token : String)
  | authError (msg : String)
  | connectionError (msg : String)
  | garthHttpError (msg : String)
  | otherError (msg : String)
  deriving Repr, DecidableEq

/-- Oracle for the opaque external Garmin client within one call. -/
structure ClientOracle where
  /-- whether `g.login(token_dir)` (token restore) succeeds; `false`
  stands for any raised exception. -/
  tokenLoginOk : Bool
  /-- outcome of `g.login()` with credentials. -/
  credLogin : LoginOutcome
  /-- the working-area file tree written by `g.garth.dump(token_dir)`
  after a success. -/
  dumped : FileTree
  deriving Repr, DecidableEq

/-- Exceptions escaping the session-manager functions. -/
inductive PyErr where
  /-- `GarminAuthError(msg)`. -/
  | garminAuthError (msg : String)
  /-- the exception raised by `b64_to_dir` on a corrupt stored blob
  (`binascii.Error` / `zipfile.BadZipFile`); the source does not catch
  it. -/
  | blobDecodeError
  /-- an exception raised by `g.resume_login`, propagated uncaught. -/
  | resumeError (msg : String)
  deriving Repr, DecidableEq

/-- Which path produced the logged-in client. -/
inductive ClientVia where
  | storedTokens
  | credentials
  deriving Repr, DecidableEq

/-- Continuation of `get_logged_in_client` after the token-restore block
(from the `# 1) Try token login` comment onward).

The `raise GarminAuthError(f"MFA_REQUIRED::{result[1]}")` on an MFA
challenge sits inside the same `try` whose final
`except Exception as e` clause re-raises `GarminAuthError(f"UNKNOWN::{e}")`,
and `GarminAuthError` is not one of the three earlier `except` classes,
so the error that actually escapes carries the message
`"UNKNOWN::MFA_REQUIRED::<token>"`. -/
def get_logged_in_client_rest (env : Env) (s : Store) (oracle : ClientOracle)
    (user_id : String) (email password : Option String) :
    Except PyErr ClientVia × Store :=
  if oracle.tokenLoginOk then (.ok .storedTokens, s)
  else if ¬ pyTruthy email ∨ ¬ pyTruthy password then
    (.error (.garminAuthError
      "No valid stored tokens and no email/password provided."), s)
  else
    match oracle.credLogin with
    | .needsMfa token =>
      (.error (.garminAuthError ("UNKNOWN::" ++ "MFA_REQUIRED::" ++ token)), s)
    | .success =>
      (.ok .credentials,
       save_tokens env s user_id (zip_dir_to_b64 oracle.dumped))
    | .authError m => (.error (.garminAuthError ("AUTH_FAILED::" ++ m)), s)
    | .connectionError m =>
      (.error (.garminAuthError ("CONNECTION_FAILED::" ++ m)), s)
    | .garthHttpError m =>
      (.error (.garminAuthError ("GARTH_HTTP_ERROR::" ++ m)), s)
    | .otherError m => (.error (.garminAuthError ("UNKNOWN::" ++ m)), s)

/-- `garmin_auth.get_logged_in_client`.  The token-restore block
(`existing = await load_tokens(...)`; `if existing: b64_to_dir(...)`)
runs before — and outside — the `try` that guards the token login, so a
blob that fails to decode raises out of the function. -/
def get_logged_in_client (env : Env) (s : Store) (oracle : ClientOracle)
    (user_id : String) (email password : Option String) :
    Except PyErr ClientVia × Store :=
  match load_tokens env s user_id with
  | some existing =>
    if existing ≠ "" then
      match b64_to_dir existing with
      | none => (.error .blobDecodeError, s)
      | some _ => get_logged_in_client_rest env s oracle user_id email password
    else get_logged_in_client_rest env s oracle user_id email password
  | none => get_logged_in_client_rest env s oracle user_id email password

/-- The in-memory `_PENDING_CREDS` table:
`user_id ↦ (email, password, expires_at)`. -/
def Pending := List (String × (String × String × Int))
  deriving Repr, DecidableEq

/-- `garmin_auth._pending_ttl_seconds`. -/
def pending_ttl_seconds (env : Env) : Int :=
  match pyInt ((env.AUTH_PENDING_TTL_SECONDS).getD "300") with
  | some n => max 1 n
  | none => 300

/-- `garmin_auth._set_pending_creds` (`now` models `time.time()`). -/
def set_pending_creds (env : Env) (p : Pending)
    (user_id email password : String) (now : Int) : Pending :=
  (user_id, (email, password, now + pending_ttl_seconds env)) ::
    p.filter (fun q => q.1 ≠ user_id)

/-- `garmin_auth._pop_pending_creds`: the entry is removed both when it
has expired and when it is returned. -/
def pop_pending_creds (p : Pending) (user_id : String) (now : Int) :
    Option (String × String) × Pending :=
  match List.lookup user_id p with
  | none => (none, p)
  | some (email, password, expires_at) =>
    if now > expires_at then (none, p.filter (fun q => q.1 ≠ user_id))
    else (some (email, password), p.filter (fun q => q.1 ≠ user_id))

/-- The dictionary returned by `garmin_auth.start_login`. -/
inductive StartLoginResult where
  | ok
  | needs_mfa (mfa_token : String)
  deriving Repr, DecidableEq

/-- `garmin_auth.start_login`.  The external login outcome and the tree
written by `g.garth.dump` are oracles; the `("needs_mfa", token)` pair is
returned directly (a `return` inside the `try` is not intercepted), and
only the fully successful login saves a token blob. -/
def start_login (env : Env) (s : Store) (p : Pending)
    (credLogin : LoginOutcome) (dumped : FileTree) (now : Int)
    (user_id email password : String) :
    Except PyErr StartLoginResult × Store × Pending :=
  match credLogin with
  | .needsMfa token =>
    (.ok (.needs_mfa token), s, set_pending_creds env p user_id email password now)
  | .success =>
    (.ok .ok, save_tokens env s user_id (zip_dir_to_b64 dumped), p)
  | .authError m => (.error (.garminAuthError ("AUTH_FAILED::" ++ m)), s, p)
  | .connectionError m =>
    (.error (.garminAuthError ("CONNECTION_FAILED::" ++ m)), s, p)
  | .garthHttpError m =>
    (.error (.garminAuthError ("GARTH_HTTP_ERROR::" ++ m)), s, p)
  | .otherError m => (.error (.garminAuthError ("UNKNOWN::" ++ m)), s, p)

/-- One run of `garmin_auth.resume_mfa_login`: the escaping result, the
token store and pending table afterwards, and whether the external
`g.resume_login` handshake was attempted. -/
structure ResumeRun where
  result : Except PyErr Unit
  store : Store
  pending : Pending
  attemptedResume : Bool
  deriving Repr

/-- `garmin_auth.resume_mfa_login`.  `resumeOutcome` is the oracle for
the external `g.resume_login(mfa_token, mfa_code)` + `g.garth.dump`
handshake: `.ok tree` = the dumped working area, `.error` = it raised
(the function has no `try`, so that exception propagates).  The
`mfa_token`/`mfa_code` arguments are consumed only by the oracle. -/
def resume_mfa_login (env : Env) (s : Store) (p : Pending)
    (resumeOutcome : Except String FileTree) (now : Int)
    (user_id mfa_token mfa_code : String)
    (email password : Option String) : ResumeRun :=
  if ¬ pyTruthy email ∨ ¬ pyTruthy password then
    match pop_pending_creds p user_id now with
    | (none, p2) =>
      ⟨.error (.garminAuthError "MFA_PENDING_EXPIRED"), s, p2, false⟩
    | (some _, p2) =>
      match resumeOutcome with
      | .error m => ⟨.error (.resumeError m), s, p2, true⟩
      | .ok dumped =>
        ⟨.ok (), save_tokens env s user_id (zip_dir_to_b64 dumped), p2, true⟩
  else
    match resumeOutcome with
    | .error m => ⟨.error (.resumeError m), s, p, true⟩
    | .ok dumped =>
      ⟨.ok (), save_tokens env s user_id (zip_dir_to_b64 dumped), p, true⟩

/-- Python `str.startswith(pre)`. -/
def pyStartswith (s pre : String) : Bool := pre.data.isPrefixOf s.data

/-- Python `msg.split(pre, 1)[1]` when `msg` starts with `pre`. -/
def pyDropPrefix (s pre : String) : String := ⟨s.data.drop pre.data.length⟩

/-- The dictionary a tool call returns to the MCP client. -/
inductive ToolResult where
  | ok
  | needs_mfa (mfa_token : String)
  | error (message : String)
  deriving Repr, DecidableEq

/-- `index.garmin_auth_start`: calls `get_logged_in_client` and maps
`GarminAuthError`s whose message starts with `MFA_REQUIRED::` to a
`needs_mfa` result; any other exception class propagates out of the
tool body. -/
def garmin_auth_start (env : Env) (s : Store) (oracle : ClientOracle)
    (user_id email password : String) : Except PyErr ToolResult × Store :=
  match get_logged_in_client env s oracle user_id (some email) (some password)
    with
  | (.ok _, s2) => (.ok .ok, s2)
  | (.error (.garminAuthError msg), s2) =>
    if pyStartswith msg "MFA_REQUIRED::" then
      (.ok (.needs_mfa (pyDropPrefix msg "MFA_REQUIRED::")), s2)
    else (.ok (.error msg), s2)
  | (.error e, s2) => (.error e, s2)

/-- The credential-login continuation never mutates the store unless the
external login fully succeeds. -/
theorem get_logged_in_client_rest_store_eq (env : Env) (s : Store)
    (tlo : Bool) (o : LoginOutcome) (d : FileTree) (uid : String)
    (e pw : Option String) (h : o ≠ .success) :
    (get_logged_in_client_rest env s ⟨tlo, o, d⟩ uid e pw).2 = s := by
  unfold get_logged_in_client_rest
  split
  · rfl
  · split
    · rfl
    · cases o with
      | success => exact absurd rfl h
      | needsMfa t => rfl
      | authError m => rfl
      | connectionError m => rfl
      | garthHttpError m => rfl
      | otherError m => rfl

/-- `get_logged_in_client` never mutates the store unless the external
credential login fully succeeds. -/
theorem get_logged_in_client_store_eq (env : Env) (s : Store)
    (tlo : Bool) (o : LoginOutcome) (d : FileTree) (uid : String)
    (e pw : Option String) (h : o ≠ .success) :
    (get_logged_in_client env s ⟨tlo, o, d⟩ uid e pw).2 = s := by
  unfold get_logged_in_client
  split
  · split
    · split
      · rfl
      · exact get_logged_in_client_rest_store_eq env s tlo o d uid e pw h
    · exact get_logged_in_client_rest_store_eq env s tlo o d uid e pw h
  · exact get_logged_in_client_rest_store_eq env s tlo o d uid e pw h

/-- A `resume_mfa_login` call without supplied credentials whose pending
lookup comes back empty fails before the external handshake. -/
theorem resume_pop_none_run (env : Env) (s : Store) (p : Pending)
    (ro : Except String FileTree) (now : Int) (uid mt mc : String)
    (hpop : (pop_pending_creds p uid now).1 = none) :
    resume_mfa_login env s p ro now uid mt mc none none =
      ⟨.error (.garminAuthError "MFA_PENDING_EXPIRED"), s,
       (pop_pending_creds p uid now).2, false⟩ := by
  unfold resume_mfa_login
  rw [if_pos (by decide : ¬ pyTruthy none = true ∨ ¬ pyTruthy none = true)]
  cases hp : pop_pending_creds p uid now with
  | mk o p2 =>
    rw [hp] at hpop
    dsimp only at hpop
    subst hpop
    rfl

/-- A `resume_mfa_login` call without supplied credentials that finds an
unexpired entry removes it and runs the external handshake. -/
theorem resume_pop_some_run (env : Env) (s : Store) (p : Pending)
    (ro : Except String FileTree) (now : Int) (uid mt mc e pw : String)
    (exp : Int)
    (hl : List.lookup uid p = some (e, pw, exp)) (hexp : ¬ now > exp) :
    resume_mfa_login env s p ro now uid mt mc none none =
      (match ro with
       | .error m =>
         ⟨.error (.resumeError m), s, p.filter (fun q => q.1 ≠ uid), true⟩
       | .ok dumped =>
         ⟨.ok (), save_tokens env s uid (zip_dir_to_b64 dumped),
          p.filter (fun q => q.1 ≠ uid), true⟩) := by
  have hpop : pop_pending_creds p uid now =
      (some (e, pw), p.filter (fun q => q.1 ≠ uid)) := by
    unfold pop_pending_creds
    rw [hl]
    dsimp only
    rw [if_neg hexp]
  unfold resume_mfa_login
  rw [if_pos (by decide : ¬ pyTruthy none = true ∨ ¬ pyTruthy none = true)]
  rw [hpop]

/-- C2 (code-bug evidence): on an MFA challenge, `start_login` does
return the `needs_mfa`/token pair, but the `MFA_REQUIRED::` error that
`get_logged_in_client` raises is re-wrapped by its own catch-all
`except Exception` into `UNKNOWN::MFA_REQUIRED::<token>`, so the
`garmin_auth_start` tool's `startswith("MFA_REQUIRED::")` test fails and
the tool reports a generic error instead of the claimed
`{status: needs_mfa, mfa_token: token}`. -/
theorem mfa_required_not_surfaced_by_tool :
    get_logged_in_client
      { UPSTASH_REDIS_REST_URL := some "u", UPSTASH_REDIS_REST_TOKEN := some "t" }
      [] ⟨false, .needsMfa "tok123", []⟩ "u1" (some "e@x") (some "pw") =
      (.error (.garminAuthError "UNKNOWN::MFA_REQUIRED::tok123"), []) ∧
    garmin_auth_start
      { UPSTASH_REDIS_REST_URL := some "u", UPSTASH_REDIS_REST_TOKEN := some "t" }
      [] ⟨false, .needsMfa "tok123", []⟩ "u1" "e@x" "pw" =
      (.ok (.error "UNKNOWN::MFA_REQUIRED::tok123"), []) ∧
    ToolResult.error "UNKNOWN::MFA_REQUIRED::tok123" ≠
      ToolResult.needs_mfa "tok123" ∧
    start_login
      { UPSTASH_REDIS_REST_URL := some "u", UPSTASH_REDIS_REST_TOKEN := some "t" }
      [] [] (.needsMfa "tok123") [] 0 "u1" "e@x" "pw" =
      (.ok (.needs_mfa "tok123"), [],
       set_pending_creds
         { UPSTASH_REDIS_REST_URL := some "u",
           UPSTASH_REDIS_REST_TOKEN := some "t" } [] "u1" "e@x" "pw" 0) :=
  ⟨rfl, rfl, by decide, rfl⟩

/-- C3: a credential login that yields an MFA challenge writes no
TokenBlob (`save_tokens` never runs on that path, in `start_login` and in
`get_logged_in_client` alike); more generally the stored TokenBlob is
mutated only when the external login fully succeeds, and a failed MFA
resume handshake writes nothing either. -/
theorem mfa_challenge_writes_no_tokenblob :
    (∀ (env : Env) (s : Store) (p : Pending) (d : FileTree) (now : Int)
      (uid email password token : String),
      (start_login env s p (.needsMfa token) d now uid email password).2.1 = s) ∧
    (∀ (env : Env) (s : Store) (tlo : Bool) (d : FileTree) (uid token : String)
      (e pw : Option String),
      (get_logged_in_client env s ⟨tlo, .needsMfa token, d⟩ uid e pw).2 = s) ∧
    (∀ (env : Env) (s : Store) (p : Pending) (d : FileTree) (now : Int)
      (uid email password : String) (o : LoginOutcome), o ≠ .success →
      (start_login env s p o d now uid email password).2.1 = s) ∧
    (∀ (env : Env) (s : Store) (tlo : Bool) (d : FileTree) (uid : String)
      (e pw : Option String) (o : LoginOutcome), o ≠ .success →
      (get_logged_in_client env s ⟨tlo, o, d⟩ uid e pw).2 = s) ∧
    (∀ (env : Env) (s : Store) (p : Pending) (now : Int)
      (uid mt mc m : String) (e pw : Option String),
      (resume_mfa_login env s p (.error m) now uid mt mc e pw).store = s) := by
  refine ⟨?_, ?_, ?_, ?_, ?_⟩
  · intros; rfl
  · intro env s tlo d uid token e pw
    exact get_logged_in_client_store_eq env s tlo _ d uid e pw
      (by intro hh; cases hh)
  · intro env s p d now uid email password o h
    cases o with
    | success => exact absurd rfl h
    | needsMfa t => rfl
    | authError m => rfl
    | connectionError m => rfl
    | garthHttpError m => rfl
    | otherError m => rfl
  · intro env s tlo d uid e pw o h
    exact get_logged_in_client_store_eq env s tlo o d uid e pw h
  · intro env s p now uid mt mc m e pw
    unfold resume_mfa_login
    split
    · split
      · rfl
      · rfl
    · rfl

theorem mfa_challenge_writes_no_tokenblob_witness :
    (start_login {} [] [] (.authError "x") [] 0 "u1" "e" "p").2.1 =
      ([] : Store) ∧
    (get_logged_in_client {} [] ⟨false, .authError "x", []⟩ "u1" (some "e")
      (some "p")).2 = ([] : Store) :=
  ⟨mfa_challenge_writes_no_tokenblob.2.2.1 {} [] [] [] 0 "u1" "e" "p"
     (.authError "x") (by decide),
   mfa_challenge_writes_no_tokenblob.2.2.2.1 {} [] false [] "u1" (some "e")
     (some "p") (.authError "x") (by decide)⟩

/-- C6: `resume_mfa_login` with neither email nor password supplied and
no unexpired pending entry for the user id (absent or expired) fails with
the `MFA_PENDING_EXPIRED` error, writes nothing, and never attempts the
external resume handshake. -/
theorem resume_without_creds_expired_fails :
    ∀ (env : Env) (s : Store) (p : Pending) (ro : Except String FileTree)
      (now : Int) (uid mt mc : String),
      (List.lookup uid p = none ∨
        ∃ e pw exp, List.lookup uid p = some (e, pw, exp) ∧ now > exp) →
      (resume_mfa_login env s p ro now uid mt mc none none).result =
        .error (.garminAuthError "MFA_PENDING_EXPIRED") ∧
      (resume_mfa_login env s p ro now uid mt mc none none).attemptedResume =
        false ∧
      (resume_mfa_login env s p ro now uid mt mc none none).store = s := by
  intro env s p ro now uid mt mc h
  have hpop : (pop_pending_creds p uid now).1 = none := by
    unfold pop_pending_creds
    rcases h with h | ⟨e, pw, exp, hl, hexp⟩
    · rw [h]
    · rw [hl]
      dsimp only
      rw [if_pos hexp]
  rw [resume_pop_none_run env s p ro now uid mt mc hpop]
  exact ⟨rfl, rfl, rfl⟩

theorem resume_without_creds_expired_fails_witness :
    (resume_mfa_login {} [] [] (.ok []) 0 "u1" "t" "c" none none).result =
      .error (.garminAuthError "MFA_PENDING_EXPIRED") ∧
    (resume_mfa_login {} [] [] (.ok []) 0 "u1" "t" "c" none none).attemptedResume
      = false ∧
    (resume_mfa_login {} [] [("u1", ("e", "p", 10)) ] (.ok []) 99 "u1" "t" "c"
      none none).result = .error (.garminAuthError "MFA_PENDING_EXPIRED") :=
  ⟨(resume_without_creds_expired_fails {} [] [] (.ok []) 0 "u1" "t" "c"
      (Or.inl rfl)).1,
   (resume_without_creds_expired_fails {} [] [] (.ok []) 0 "u1" "t" "c"
      (Or.inl rfl)).2.1,
   (resume_without_creds_expired_fails {} [] [("u1", ("e", "p", 10))] (.ok [])
      99 "u1" "t" "c" (Or.inr ⟨"e", "p", 10, rfl, by decide⟩)).1⟩

/-- C9: without caller-supplied credentials, an unexpired pending entry
is removed from the table at the moment it is read, before the external
resume handshake runs; if that handshake fails, a retry without supplied
credentials fails with `MFA_PENDING_EXPIRED` even though the entry's TTL
has not lapsed. -/
theorem pending_entry_consumed_at_read :
    ∀ (env : Env) (s : Store) (p : Pending) (now : Int)
      (uid mt mc m e pw : String) (exp : Int)
      (ro2 : Except String FileTree) (mt2 mc2 : String),
      List.lookup uid p = some (e, pw, exp) → ¬ now > exp →
      (resume_mfa_login env s p (.error m) now uid mt mc none none).attemptedResume
        = true ∧
      (resume_mfa_login env s p (.error m) now uid mt mc none none).result =
        .error (.resumeError m) ∧
      List.lookup uid
        (resume_mfa_login env s p (.error m) now uid mt mc none none).pending =
        none ∧
      (resume_mfa_login env s
        (resume_mfa_login env s p (.error m) now uid mt mc none none).pending
        ro2 now uid mt2 mc2 none none).result =
        .error (.garminAuthError "MFA_PENDING_EXPIRED") := by
  intro env s p now uid mt mc m e pw exp ro2 mt2 mc2 hl hexp
  have h1 := resume_pop_some_run env s p (.error m) now uid mt mc e pw exp hl
    hexp
  rw [h1]
  refine ⟨rfl, rfl, lookup_filter_ne_none uid p, ?_⟩
  have hpop2 : (pop_pending_creds (p.filter (fun q => q.1 ≠ uid)) uid now).1 =
      none := by
    unfold pop_pending_creds
    rw [lookup_filter_ne_none uid p]
  rw [resume_pop_none_run env s _ ro2 now uid mt2 mc2 hpop2]

theorem pending_entry_consumed_at_read_witness :
    (resume_mfa_login {} [] [("u1", ("e", "p", 100))] (.error "wrong code") 0
      "u1" "t" "c" none none).result = .error (.resumeError "wrong code") ∧
    (resume_mfa_login {} []
      (resume_mfa_login {} [] [("u1", ("e", "p", 100))] (.error "wrong code") 0
        "u1" "t" "c" none none).pending
      (.error "wrong code") 0 "u1" "t" "c" none none).result =
      .error (.garminAuthError "MFA_PENDING_EXPIRED") :=
  ⟨(pending_entry_consumed_at_read {} [] [("u1", ("e", "p", 100))] 0 "u1" "t"
      "c" "wrong code" "e" "p" 100 (.error "wrong code") "t" "c" rfl
      (by decide)).2.1,
   (pending_entry_consumed_at_read {} [] [("u1", ("e", "p", 100))] 0 "u1" "t"
      "c" "wrong code" "e" "p" 100 (.error "wrong code") "t" "c" rfl
      (by decide)).2.2.2⟩

/-- C7 (counterexample): a stored blob that fails to decode makes
`get_logged_in_client` raise straight to the caller even though email and
password are supplied and the credential login would succeed — the
`b64_to_dir` call sits outside the `try` block, so not every
restore-stage error falls through to credential login. -/
theorem restore_error_surfaced_counterexample :
    get_logged_in_client
      { UPSTASH_REDIS_REST_URL := some "u", UPSTASH_REDIS_REST_TOKEN := some "t" }
      [("garmin:tokens:u1", "x")] ⟨false, .success, []⟩ "u1" (some "e")
      (some "pw") =
      (.error .blobDecodeError, [("garmin:tokens:u1", "x")]) := rfl

/-- C7 (amended): provided the stored blob is absent, empty, or decodes,
any failure of the client token login (`Garmin()`/`g.login(token_dir)`,
whatever the exception) is swallowed: the call continues into the
credential-login path, and fails at that point only when email or
password is missing (the `NoCredentials` hard failure). -/
theorem token_login_error_falls_through (env : Env) (s : Store)
    (oracle : ClientOracle) (uid : String) (e pw : Option String)
    (hblob : load_tokens env s uid = none ∨ load_tokens env s uid = some "" ∨
      ∃ blob tree, load_tokens env s uid = some blob ∧
        b64_to_dir blob = some tree) :
    get_logged_in_client env s oracle uid e pw =
      get_logged_in_client_rest env s oracle uid e pw ∧
    (oracle.tokenLoginOk = false → (¬ pyTruthy e ∨ ¬ pyTruthy pw) →
      get_logged_in_client env s oracle uid e pw =
        (.error (.garminAuthError
          "No valid stored tokens and no email/password provided."), s)) := by
  have hmain : get_logged_in_client env s oracle uid e pw =
      get_logged_in_client_rest env s oracle uid e pw := by
    unfold get_logged_in_client
    rcases hblob with h | h | ⟨blob, tree, hb, ht⟩
    · rw [h]
    · rw [h]
      dsimp only
      rw [if_neg (by simp)]
    · rw [hb]
      dsimp only
      by_cases hb0 : blob ≠ ""
      · rw [if_pos hb0, ht]
      · rw [if_neg hb0]
  refine ⟨hmain, ?_⟩
  intro htlo hcreds
  rw [hmain]
  unfold get_logged_in_client_rest
  rw [htlo]
  rw [if_neg (by decide), if_pos hcreds]

theorem token_login_error_falls_through_witness :
    get_logged_in_client {} [] ⟨false, .authError "bad", []⟩ "u1" none none =
      (.error (.garminAuthError
        "No valid stored tokens and no email/password provided."), []) :=
  (token_login_error_falls_through {} [] ⟨false, .authError "bad", []⟩ "u1"
    none none (Or.inl rfl)).2 rfl (Or.inl (by decide))

end GarminMcp
